import Mathlib

/-!
Verification development for the FastAI mock backend (`src/main.py`).

The Python module defines pydantic data models, two in-memory constants
(`MOCK_SITE`, `MOCK_SITES_LIST`), a chunked HTML generator
(`generate_html_chunks`) and five FastAPI endpoint handlers.  Everything is
embedded shallowly below: pydantic models become structures, the module-level
constants become a `ServerState` record threaded explicitly through the
handlers, the async generator becomes a pure function returning the list of
chunks it yields, and raising `HTTPException` becomes returning an error
response value.
-/

set_option maxRecDepth 20000

namespace FastAI

/-- A UTC timestamp, as produced by `datetime(..., tzinfo=timezone.utc)`.
Only the fields the source constructs explicitly are modelled. -/
structure UtcDateTime where
  year : Nat
  month : Nat
  day : Nat
  hour : Nat
  minute : Nat
  second : Nat
deriving DecidableEq, Repr

/-- Python `str.capitalize`: first character uppercased, the rest
lowercased. -/
def capitalizePy (s : String) : String :=
  match s.data with
  | [] => ""
  | c :: cs => String.mk (c.toUpper :: cs.map Char.toLower)

/-- Python `snake_str.split('_')` on the code-point sequence: maximal runs
between underscores, with empty runs kept. -/
def splitUnderscore : List Char → List (List Char)
  | [] => [[]]
  | c :: cs =>
    match splitUnderscore cs with
    | [] => [[]]
    | w :: ws => if c = '_' then [] :: w :: ws else (c :: w) :: ws

/-- `to_camel_case` from `main.py`: `components = snake_str.split('_')`,
then the first component followed by the capitalized remaining components. -/
def to_camel_case (snake_str : String) : String :=
  match (splitUnderscore snake_str.data).map String.mk with
  | [] => ""
  | c :: rest => c ++ String.join (rest.map capitalizePy)

example : to_camel_case "html_code_download_url" = "htmlCodeDownloadUrl" := by rfl
example : to_camel_case "id" = "id" := by rfl

/-- Pydantic model `CreateSiteRequest`: optional `title` (max 128 chars),
required `prompt`. -/
structure CreateSiteRequest where
  title : Option String
  prompt : String
deriving DecidableEq, Repr

/-- Pydantic model `CreateSiteResponse`. -/
structure CreateSiteResponse where
  id : Int
  title : Option String
  prompt : String
  html_code_url : String
  html_code_download_url : String
  screenshot_url : String
  created_at : UtcDateTime
  updated_at : UtcDateTime
deriving DecidableEq, Repr

/-- Pydantic model `SiteResponse`. -/
structure SiteResponse where
  id : Int
  title : String
  prompt : String
  html_code_url : Option String
  html_code_download_url : Option String
  screenshot_url : Option String
  created_at : UtcDateTime
  updated_at : UtcDateTime
deriving DecidableEq, Repr

/-- Response model of `GET /users/me` (`UserDetailsResponse` content as the
handler actually returns it, a fixed JSON dictionary). -/
structure UserDetails where
  profile_id : String
  username : String
  email : String
  is_active : Bool
  registered_at : String
  updated_at : String
deriving DecidableEq, Repr

/-- The module-level constant `MOCK_SITE`. -/
def MOCK_SITE : SiteResponse :=
  { id := 1
  , title := "Фан клуб Домино"
  , prompt := "Сайт любителей играть в домино"
  , html_code_url := some "http://example.com/media/index.html"
  , html_code_download_url :=
      some "http://example.com/media/index.html?response-content-disposition=attachment"
  , screenshot_url := some "http://example.com/media/index.png"
  , created_at := ⟨2025, 6, 15, 18, 29, 56⟩
  , updated_at := ⟨2025, 6, 15, 18, 29, 56⟩ }

/-- The module-level constant `MOCK_SITES_LIST = [MOCK_SITE, ]`. -/
def MOCK_SITES_LIST : List SiteResponse := [MOCK_SITE]

/-- The mutable module-level data the handlers can see.  In `main.py` these
are the globals `MOCK_SITE` and `MOCK_SITES_LIST`; threading them through the
handlers makes any mutation (there is none) visible in the embedding. -/
structure ServerState where
  mock_site : SiteResponse
  mock_sites_list : List SiteResponse
deriving DecidableEq, Repr

/-- The state the module starts in. -/
def initState : ServerState :=
  { mock_site := MOCK_SITE, mock_sites_list := MOCK_SITES_LIST }

/-- The f-string `html_template` built inside `generate_html_chunks`:
the interpolations `\x7bsite_id\x7d` and `\x7bprompt\x7d` become string
appends, `str(site_id)` being `toString`. -/
def html_template (prompt : String) (site_id : Int) : String :=
  "\n    <!DOCTYPE html>\n    <html>\n    <head>\n        <title>Сайт #"
    ++ toString site_id
    ++ "</title>\n    </head>\n    <body>\n        <h1>Сгенерировано на основе: "
    ++ prompt
    ++ "</h1>\n        <p>Контент сайта...</p>\n    </body>\n    </html>\n    "

/-- The body of the slicing loop, recursing on a fuel counter so that the
definition is structural and computes inside the kernel.  With enough fuel
(`l.length` suffices, since every step consumes at least one element) this is
exactly `for i in range(0, len(s), 100): yield s[i:i+100]`. -/
def chunks100Fuel : Nat → List Char → List (List Char)
  | _, [] => []
  | 0, _ :: _ => []
  | Nat.succ fuel, c :: cs => ((c :: cs).take 100) :: chunks100Fuel fuel ((c :: cs).drop 100)

/-- The slicing loop `for i in range(0, len(s), 100): yield s[i:i+100]`
on the code-point sequence of the rendered template. -/
def chunks100 (l : List Char) : List (List Char) :=
  chunks100Fuel l.length l

/-- `generate_html_chunks(prompt, site_id)` from `main.py`: renders
`html_template` and yields its fixed-size 100-code-unit slices in order
(the `await asyncio.sleep(0.1)` between yields has no effect on the values). -/
def generate_html_chunks (prompt : String) (site_id : Int) : List String :=
  (chunks100 (html_template prompt site_id).data).map String.mk

example : String.join (generate_html_chunks "p" 1) = html_template "p" 1 := by rfl

example :
    (generate_html_chunks "Сайт любителей играть в домино" 1).map String.length
      = [100, 100, 30] := by rfl

/-! ### Request validation (pydantic) -/

/-- The validation failures the `CreateSiteRequest` schema can produce:
`missing` on the required `prompt`, `max_length` 128 on `title`. -/
inductive ValidationIssue
  | missingPrompt
  | titleTooLong
deriving DecidableEq, Repr

/-- The issues pydantic reports for a raw `/sites/create` body, where `none`
stands for an absent (or null) field. -/
def validationIssues (title : Option String) (prompt : Option String) :
    List ValidationIssue :=
  (if prompt.isNone then [ValidationIssue.missingPrompt] else [])
    ++ (match title with
        | some t => if 128 < t.length then [ValidationIssue.titleTooLong] else []
        | none => [])

/-- Pydantic validation of a raw `/sites/create` body against
`CreateSiteRequest`: succeeds exactly when no issue is reported. -/
def validateCreateSiteRequest (title : Option String) (prompt : Option String) :
    Except (List ValidationIssue) CreateSiteRequest :=
  match prompt, validationIssues title prompt with
  | some p, [] => Except.ok { title := title, prompt := p }
  | _, issues => Except.error issues

/-! ### The `id != 1` guard

The handler `mock_generate_site_html` tests `if id != 1:`.  No local named
`id` is in scope there (the path parameter is `site_id`), so `id` resolves to
the Python builtin function `id`, and `!=` compares a function object with the
integer `1`.  We embed just enough of Python values to express that
comparison. -/

/-- A Python value: an integer, or a builtin function object. -/
inductive PyVal
  | intV : Int → PyVal
  | builtinFunction : String → PyVal
deriving DecidableEq, Repr

/-- Python `==` on these values: integers compare by value; a function object
is never equal to an integer (default identity-based equality). -/
def pyEq : PyVal → PyVal → Bool
  | PyVal.intV a, PyVal.intV b => a == b
  | PyVal.builtinFunction f, PyVal.builtinFunction g => f == g
  | _, _ => false

/-- Python `!=`. -/
def pyNe (a b : PyVal) : Bool := !(pyEq a b)

/-- What the bare name `id` denotes inside `mock_generate_site_html`:
the builtin function, not the `site_id` parameter. -/
def idBuiltin : PyVal := PyVal.builtinFunction "id"

/-! ### Responses and endpoint handlers -/

/-- The value an endpoint handler produces: a JSON body, a streamed HTML body,
or an `HTTPException`-style error (404 `detail`, or a 422 validation error). -/
inductive Response
  | user : UserDetails → Response
  | sites : List SiteResponse → Response
  | created : CreateSiteResponse → Response
  | htmlStream : List String → Response
  | site : SiteResponse → Response
  | notFound : String → Response
  | validationError : List ValidationIssue → Response
deriving DecidableEq, Repr

/-- Handler of `GET /users/me`: returns a fixed JSON dictionary. -/
def mock_get_current_user (s : ServerState) : ServerState × Response :=
  (s, Response.user
    { profile_id := "1"
    , username := "user123"
    , email := "example@example.com"
    , is_active := true
    , registered_at := "2025-06-15T18:29:56+00:00"
    , updated_at := "2025-06-15T18:29:56+00:00" })

/-- Handler of `GET /sites/my`: returns the global `MOCK_SITES_LIST`. -/
def mock_get_user_sites (s : ServerState) : ServerState × Response :=
  (s, Response.sites s.mock_sites_list)

/-- Handler of `POST /sites/create` on an already-validated request:
builds a fresh `CreateSiteResponse` with `id=1` and both timestamps set to
`current_time`; it touches no global state. -/
def mock_create_site (s : ServerState) (current_time : UtcDateTime)
    (request : CreateSiteRequest) : ServerState × Response :=
  (s, Response.created
    { id := 1
    , title := request.title
    , prompt := request.prompt
    , created_at := current_time
    , updated_at := current_time
    , html_code_url := "http://example.com/media/index.html"
    , html_code_download_url :=
        "http://example.com/media/index.html?response-content-disposition=attachment"
    , screenshot_url := "http://example.com/media/index.png" })

/-- Handler of `POST /sites/\x7bsite_id\x7d/generate`: as written it raises
`HTTPException(404)` when `id != 1` — with `id` the builtin (see `idBuiltin`) —
and otherwise streams `generate_html_chunks(request.prompt, site_id)`. -/
def mock_generate_site_html (s : ServerState) (prompt : String)
    (site_id : Int) : ServerState × Response :=
  if pyNe idBuiltin (PyVal.intV 1) then
    (s, Response.notFound "Site not found")
  else
    (s, Response.htmlStream (generate_html_chunks prompt site_id))

/-- Handler of `GET /sites/\x7bsite_id\x7d`: raises `HTTPException(404)` when
`site_id != 1`, otherwise returns the global `MOCK_SITE`. -/
def mock_get_site (s : ServerState) (site_id : Int) : ServerState × Response :=
  if site_id ≠ 1 then
    (s, Response.notFound "Site not found")
  else
    (s, Response.site s.mock_site)

/-! ### The server as a step function over request sequences -/

/-- An incoming HTTP request to one of the five endpoints.  For
`POST /sites/create` the body fields are raw (possibly absent), since its
validation behaviour is part of the spec. -/
inductive Request
  | getCurrentUser
  | getUserSites
  | createSite : Option String → Option String → Request
  | generateSite : Int → String → Request
  | getSite : Int → Request
deriving DecidableEq, Repr

/-- Dispatch one request: validation first (for `createSite`), then the
handler.  `now` is the wall-clock instant `datetime.now(timezone.utc)`
observed by the handler. -/
def step (s : ServerState) (now : UtcDateTime) : Request → ServerState × Response
  | Request.getCurrentUser => mock_get_current_user s
  | Request.getUserSites => mock_get_user_sites s
  | Request.createSite title prompt =>
      match validateCreateSiteRequest title prompt with
      | Except.ok req => mock_create_site s now req
      | Except.error issues => (s, Response.validationError issues)
  | Request.generateSite site_id prompt => mock_generate_site_html s prompt site_id
  | Request.getSite site_id => mock_get_site s site_id

/-- Run a sequence of timestamped requests, threading the server state. -/
def runServer (s : ServerState) : List (UtcDateTime × Request) → ServerState
  | [] => s
  | (now, req) :: rest => runServer (step s now req).1 rest

/-! ### JSON serialization of a site record

The `SiteResponse` pydantic model serializes exactly its eight declared
fields, with keys produced by the `to_camel_case` alias generator.  This is
what `GET /sites/\x7bsite_id\x7d` puts on the wire. -/

/-- A serialized JSON field value. -/
inductive FieldVal
  | intV : Int → FieldVal
  | strV : String → FieldVal
  | nullableStr : Option String → FieldVal
  | dtV : UtcDateTime → FieldVal
deriving DecidableEq, Repr

/-- The key/value pairs of a serialized `SiteResponse`. -/
def serializeSiteResponse (r : SiteResponse) : List (String × FieldVal) :=
  [ (to_camel_case "id", FieldVal.intV r.id)
  , (to_camel_case "title", FieldVal.strV r.title)
  , (to_camel_case "prompt", FieldVal.strV r.prompt)
  , (to_camel_case "html_code_url", FieldVal.nullableStr r.html_code_url)
  , (to_camel_case "html_code_download_url", FieldVal.nullableStr r.html_code_download_url)
  , (to_camel_case "screenshot_url", FieldVal.nullableStr r.screenshot_url)
  , (to_camel_case "created_at", FieldVal.dtV r.created_at)
  , (to_camel_case "updated_at", FieldVal.dtV r.updated_at) ]

/-! ### Projections used to state the claims -/

/-- The `id` of the record carried by a `site` response, if any. -/
def respSiteId : Response → Option Int
  | Response.site r => some r.id
  | _ => none

/-- The `id` assigned by a successful create response, if any. -/
def createdIdOf : Response → Option Int
  | Response.created r => some r.id
  | _ => none

/-- The number of records in a site-list response, if any. -/
def responseSiteCount : Response → Option Nat
  | Response.sites l => some l.length
  | _ => none

/-- A concrete request timestamp used in closed statements. -/
def t0 : UtcDateTime := ⟨2025, 6, 15, 18, 29, 56⟩

/-! ### Lemmas about the chunking loop -/

theorem chunks100Fuel_flatten :
    ∀ (fuel : Nat) (l : List Char), l.length ≤ fuel →
      (chunks100Fuel fuel l).flatten = l
  | fuel, [], _ => by cases fuel <;> rfl
  | 0, _ :: _, h => absurd h (by simp)
  | Nat.succ fuel, c :: cs, h => by
      have hlen : ((c :: cs).drop 100).length ≤ fuel := by
        simp only [List.length_drop, List.length_cons]
        simp only [List.length_cons] at h
        omega
      simp only [chunks100Fuel, List.flatten_cons]
      rw [chunks100Fuel_flatten fuel _ hlen, List.take_append_drop]

theorem chunks100_flatten (l : List Char) : (chunks100 l).flatten = l :=
  chunks100Fuel_flatten l.length l (Nat.le_refl _)

theorem chunks100Fuel_sizes :
    ∀ (fuel : Nat) (l : List Char), l.length ≤ fuel → l ≠ [] →
      ∃ pre final, chunks100Fuel fuel l = pre ++ [final] ∧
        (∀ c ∈ pre, c.length = 100) ∧ 0 < final.length ∧ final.length ≤ 100
  | _, [], _, hne => absurd rfl hne
  | 0, _ :: _, h, _ => absurd h (by simp)
  | Nat.succ fuel, c :: cs, h, _ => by
      have hlen : ((c :: cs).drop 100).length ≤ fuel := by
        simp only [List.length_drop, List.length_cons]
        simp only [List.length_cons] at h
        omega
      by_cases hdrop : (c :: cs).drop 100 = []
      · refine ⟨[], (c :: cs).take 100, ?_, ?_, ?_, ?_⟩
        · simp only [chunks100Fuel, hdrop, List.nil_append]
        · intro x hx; exact absurd hx (List.not_mem_nil x)
        · have : (c :: cs).length ≤ 100 := by
            have := List.drop_eq_nil_iff.mp hdrop
            omega
          simp only [List.length_take]
          simp only [List.length_cons]
          omega
        · simp only [List.length_take]
          omega
      · obtain ⟨pre, final, heq, hpre, hpos, hle⟩ :=
          chunks100Fuel_sizes fuel ((c :: cs).drop 100) hlen hdrop
        have hlong : 100 < (c :: cs).length := by
          have := List.drop_eq_nil_iff.not.mp hdrop
          omega
        refine ⟨(c :: cs).take 100 :: pre, final, ?_, ?_, hpos, hle⟩
        · simp only [chunks100Fuel, heq, List.cons_append]
        · intro x hx
          rcases List.mem_cons.mp hx with hx | hx
          · subst hx
            simp only [List.length_take]
            omega
          · exact hpre x hx

theorem chunks100_sizes (l : List Char) (hne : l ≠ []) :
    ∃ pre final, chunks100 l = pre ++ [final] ∧
      (∀ c ∈ pre, c.length = 100) ∧ 0 < final.length ∧ final.length ≤ 100 :=
  chunks100Fuel_sizes l.length l (Nat.le_refl _) hne

/-- Joining the strings made from a list of character lists is the string of
the flattened list. -/
theorem join_map_mk (l : List (List Char)) :
    String.join (l.map String.mk) = String.mk l.flatten := by
  apply String.ext
  simp only [String.data_join, List.map_map]
  have hcomp : (String.data ∘ String.mk) = id := rfl
  rw [hcomp, List.map_id]

/-- The rendered template always has at least one code unit (its literal
skeleton is nonempty). -/
theorem html_template_ne_nil (prompt : String) (site_id : Int) :
    (html_template prompt site_id).data ≠ [] := by
  have hlit : ("\n    <!DOCTYPE html>\n    <html>\n    <head>\n        <title>Сайт #" : String).data ≠ [] := by
    decide
  simp only [html_template, String.data_append]
  intro hcontra
  exact hlit (List.append_eq_nil.mp
    (List.append_eq_nil.mp
      (List.append_eq_nil.mp
        (List.append_eq_nil.mp hcontra).1).1).1).1

/-! ### State preservation -/

/-- Every handler leaves the module-level data untouched: no endpoint body
assigns to `MOCK_SITE` or `MOCK_SITES_LIST`. -/
theorem step_state (s : ServerState) (now : UtcDateTime) (req : Request) :
    (step s now req).1 = s := by
  cases req with
  | getCurrentUser => rfl
  | getUserSites => rfl
  | createSite title prompt =>
      simp only [step]
      cases validateCreateSiteRequest title prompt <;> rfl
  | generateSite site_id prompt =>
      simp only [step, mock_generate_site_html]
      split <;> rfl
  | getSite site_id =>
      simp only [step, mock_get_site]
      split <;> rfl

/-- Running any request sequence returns the server to — in fact, never moves
it from — its starting state. -/
theorem runServer_state :
    ∀ (reqs : List (UtcDateTime × Request)) (s : ServerState),
      runServer s reqs = s
  | [], _ => rfl
  | (now, req) :: rest, s => by
      show runServer (step s now req).1 rest = s
      rw [step_state]
      exact runServer_state rest s

/-! ### The claims -/

/-- C1: the spec requires `POST /sites/1/generate` to stream the chunked
HTML for the known id 1, but evaluating the handler at the failing input
`site_id = 1` shows it raises the 404 `HTTPException` instead: its guard
reads `if id != 1` — the builtin function `id`, not the `site_id`
parameter — which never equals `1`. -/
theorem C1_generate_known_id_still_404 :
    (step initState t0 (Request.generateSite 1 "Сайт любителей играть в домино")).2
      = Response.notFound "Site not found" := by
  rfl

/-- C2: the guard of `mock_generate_site_html` compares the builtin `id`
to `1`, which is always unequal, so every request — any `site_id`, any
prompt, any state — gets the 404 response and the `StreamingResponse`
branch is unreachable. -/
theorem C2_generate_always_404 (s : ServerState) (now : UtcDateTime)
    (prompt : String) (site_id : Int) :
    pyNe idBuiltin (PyVal.intV 1) = true ∧
    (step s now (Request.generateSite site_id prompt)).2
      = Response.notFound "Site not found" :=
  ⟨rfl, rfl⟩

/-- C3: the concatenation of the chunks yielded by `generate_html_chunks`
is exactly the single rendered `html_template` document, and two calls with
identical prompt and site id yield identical chunk lists. -/
theorem C3_concat_is_template_and_deterministic
    (prompt : String) (site_id : Int) (prompt2 : String) (site_id2 : Int)
    (hp : prompt = prompt2) (hs : site_id = site_id2) :
    String.join (generate_html_chunks prompt site_id)
        = html_template prompt site_id ∧
      generate_html_chunks prompt site_id
        = generate_html_chunks prompt2 site_id2 := by
  subst hp
  subst hs
  refine ⟨?_, rfl⟩
  unfold generate_html_chunks
  rw [join_map_mk, chunks100_flatten]

/-- C3 witness at the example prompt of the repository. -/
theorem C3_witness :
    String.join (generate_html_chunks "Сайт любителей играть в домино" 1)
        = html_template "Сайт любителей играть в домино" 1 ∧
      generate_html_chunks "Сайт любителей играть в домино" 1
        = generate_html_chunks "Сайт любителей играть в домино" 1 :=
  C3_concat_is_template_and_deterministic
    "Сайт любителей играть в домино" 1 "Сайт любителей играть в домино" 1 rfl rfl

/-- C4 counterexample: after `POST /sites/1/generate`, `GET /sites/1`
returns the unchanged constant `MOCK_SITE`, whose serialization has no
`status` key at all — in particular it does not carry `status = "ready"`. -/
theorem C4_counterexample :
    (step (runServer initState
        [(t0, Request.generateSite 1 "Сайт любителей играть в домино")]) t0
        (Request.getSite 1)).2 = Response.site MOCK_SITE ∧
    (serializeSiteResponse MOCK_SITE).lookup "status" = none ∧
    ¬ (serializeSiteResponse MOCK_SITE).lookup "status"
        = some (FieldVal.strV "ready") := by
  refine ⟨rfl, rfl, fun hcontra => ?_⟩
  rw [show (serializeSiteResponse MOCK_SITE).lookup "status" = none from rfl]
    at hcontra
  exact Option.noConfusion hcontra

/-- C4 amended: site records carry no `status` field, and the generation
endpoint mutates nothing, so after any request sequence (including a
generate on id 1) `GET /sites/1` still returns the constant `MOCK_SITE`,
serialized without any `status` key. -/
theorem C4_no_status_no_transition
    (reqs : List (UtcDateTime × Request)) (now : UtcDateTime) :
    (step (runServer initState reqs) now (Request.getSite 1)).2
        = Response.site MOCK_SITE ∧
      (serializeSiteResponse MOCK_SITE).lookup "status" = none := by
  rw [runServer_state]
  exact ⟨rfl, rfl⟩

/-- C5: `GET /sites/site_id` returns the full stored record when
`site_id = 1` and the 404 error otherwise; whenever a record is returned its
`id` equals the requested one, so an unknown id never yields a different
record. -/
theorem C5_get_site_record_or_404 (s : ServerState) (site_id : Int) :
    (site_id = 1 → (mock_get_site s site_id).2 = Response.site s.mock_site) ∧
    (site_id ≠ 1 →
      (mock_get_site s site_id).2 = Response.notFound "Site not found") ∧
    (respSiteId (mock_get_site initState site_id).2 = some site_id ∨
      (mock_get_site initState site_id).2 = Response.notFound "Site not found") := by
  refine ⟨?_, ?_, ?_⟩
  · intro h
    subst h
    rfl
  · intro h
    simp only [mock_get_site]
    rw [if_pos h]
  · by_cases h : site_id = 1
    · subst h
      exact Or.inl rfl
    · refine Or.inr ?_
      simp only [mock_get_site]
      rw [if_pos h]

/-- C5 witness: the known id returns the stored record, an unknown one the
404 error. -/
theorem C5_witness :
    (mock_get_site initState 1).2 = Response.site initState.mock_site ∧
    (mock_get_site initState 2).2 = Response.notFound "Site not found" :=
  ⟨(C5_get_site_record_or_404 initState 1).1 rfl,
   (C5_get_site_record_or_404 initState 2).2.1 (by decide)⟩

/-- C6 counterexample: two successive successful create calls both get
identifier 1 — the second call does not get the next identifier 2 — so the
assigned identifiers are neither unique nor increasing. -/
theorem C6_counterexample :
    createdIdOf (step initState t0
        (Request.createSite none (some "первый промт"))).2 = some 1 ∧
    createdIdOf (step (runServer initState
        [(t0, Request.createSite none (some "первый промт"))]) t0
        (Request.createSite none (some "второй промт"))).2 = some 1 ∧
    ¬ createdIdOf (step (runServer initState
        [(t0, Request.createSite none (some "первый промт"))]) t0
        (Request.createSite none (some "второй промт"))).2 = some 2 := by
  refine ⟨rfl, rfl, fun hcontra => ?_⟩
  rw [show createdIdOf (step (runServer initState
        [(t0, Request.createSite none (some "первый промт"))]) t0
        (Request.createSite none (some "второй промт"))).2 = some 1 from rfl]
    at hcontra
  simp at hcontra

/-- C6 amended: every create call succeeds, echoing the request's title and
prompt, but always assigns the constant identifier 1 regardless of any
earlier calls. -/
theorem C6_create_succeeds_id_always_1 (s : ServerState) (now : UtcDateTime)
    (req : CreateSiteRequest) :
    ∃ r, (mock_create_site s now req).2 = Response.created r ∧
      r.id = 1 ∧ r.title = req.title ∧ r.prompt = req.prompt :=
  ⟨_, rfl, rfl, rfl, rfl⟩

/-- C7 counterexample: after two successful create calls the listing still
contains exactly one record, not two. -/
theorem C7_counterexample :
    createdIdOf (step initState t0
        (Request.createSite (some "Фан клуб Домино") (some "первый промт"))).2
      = some 1 ∧
    createdIdOf (step (runServer initState
        [(t0, Request.createSite (some "Фан клуб Домино") (some "первый промт"))]) t0
        (Request.createSite none (some "второй промт"))).2 = some 1 ∧
    responseSiteCount (step (runServer initState
        [(t0, Request.createSite (some "Фан клуб Домино") (some "первый промт")),
         (t0, Request.createSite none (some "второй промт"))]) t0
        Request.getUserSites).2 = some 1 ∧
    ¬ responseSiteCount (step (runServer initState
        [(t0, Request.createSite (some "Фан клуб Домино") (some "первый промт")),
         (t0, Request.createSite none (some "второй промт"))]) t0
        Request.getUserSites).2 = some 2 := by
  refine ⟨rfl, rfl, rfl, fun hcontra => ?_⟩
  rw [show responseSiteCount (step (runServer initState
        [(t0, Request.createSite (some "Фан клуб Домино") (some "первый промт")),
         (t0, Request.createSite none (some "второй промт"))]) t0
        Request.getUserSites).2 = some 1 from rfl] at hcontra
  simp at hcontra

/-- C7 amended: listing returns exactly the one constant record
`MOCK_SITE`, in insertion order, no matter how many create calls (or any
other requests) preceded it. -/
theorem C7_list_always_single
    (reqs : List (UtcDateTime × Request)) (now : UtcDateTime) :
    (step (runServer initState reqs) now Request.getUserSites).2
        = Response.sites [MOCK_SITE] ∧
      ([MOCK_SITE] : List SiteResponse).length = 1 := by
  rw [runServer_state]
  exact ⟨rfl, rfl⟩

/-- C8: for every prompt and site id the yielded chunks split as a prefix of
chunks of exactly 100 code units followed by one final chunk of between 1 and
100 code units. -/
theorem C8_chunk_sizes (prompt : String) (site_id : Int) :
    ∃ pre final, generate_html_chunks prompt site_id = pre ++ [final] ∧
      (∀ c ∈ pre, c.length = 100) ∧ 0 < final.length ∧ final.length ≤ 100 := by
  obtain ⟨pre, fin, heq, hpre, hpos, hle⟩ :=
    chunks100_sizes (html_template prompt site_id).data
      (html_template_ne_nil prompt site_id)
  refine ⟨pre.map String.mk, String.mk fin, ?_, ?_, hpos, hle⟩
  · unfold generate_html_chunks
    rw [heq, List.map_append, List.map_cons, List.map_nil]
  · intro c hc
    obtain ⟨x, hx, rfl⟩ := List.mem_map.mp hc
    exact hpre x hx

/-- C8 witness at the example prompt of the repository. -/
theorem C8_witness :
    ∃ pre final,
      generate_html_chunks "Сайт любителей играть в домино" 1
          = pre ++ [final] ∧
        (∀ c ∈ pre, c.length = 100) ∧ 0 < final.length ∧ final.length ≤ 100 :=
  C8_chunk_sizes "Сайт любителей играть в домино" 1

/-- Does the (possibly absent) title pass the `max_length=128` check? -/
def titleLenOk : Option String → Bool
  | some t => decide (t.length ≤ 128)
  | none => true

/-- C9: validation of a create request succeeds exactly when the prompt is
present and the title, if present, has at most 128 characters; and any
reported issue is one of the two categories missing-prompt and
title-too-long. -/
theorem C9_validation_iff (title : Option String) (prompt : Option String) :
    ((validateCreateSiteRequest title prompt).isOk = true ↔
        (prompt.isSome = true ∧ titleLenOk title = true)) ∧
      (∀ issues, validateCreateSiteRequest title prompt = Except.error issues →
        ∀ i ∈ issues,
          i = ValidationIssue.missingPrompt ∨ i = ValidationIssue.titleTooLong) := by
  constructor
  · cases prompt with
    | none =>
        simp [validateCreateSiteRequest, validationIssues, Except.isOk, Except.toBool]
    | some p =>
        cases title with
        | none =>
            simp [validateCreateSiteRequest, validationIssues, titleLenOk,
              Except.isOk, Except.toBool]
        | some t =>
            by_cases h : 128 < t.length <;>
              simp [validateCreateSiteRequest, validationIssues, titleLenOk,
                Except.isOk, Except.toBool, h]
            omega
  · intro issues _ i _
    cases i with
    | missingPrompt => exact Or.inl rfl
    | titleTooLong => exact Or.inr rfl

/-- C9 witness: a present prompt with a short title validates, and applying
the theorem at a missing prompt confirms validation fails there. -/
theorem C9_witness :
    (validateCreateSiteRequest (some "Фан клуб Домино")
        (some "Сайт любителей играть в домино")).isOk = true :=
  ((C9_validation_iff (some "Фан клуб Домино")
      (some "Сайт любителей играть в домино")).1).mpr (by decide)

/-- C10: no endpoint mutates the server state — `MOCK_SITE` and
`MOCK_SITES_LIST` are never modified — so after any sequence of requests
`GET /sites/my` and `GET /sites/1` answer exactly as they did initially. -/
theorem C10_no_endpoint_mutates
    (s : ServerState) (reqs : List (UtcDateTime × Request)) (now : UtcDateTime) :
    runServer s reqs = s ∧
    (step (runServer initState reqs) now Request.getUserSites).2
        = (step initState now Request.getUserSites).2 ∧
      (step (runServer initState reqs) now (Request.getSite 1)).2
        = (step initState now (Request.getSite 1)).2 := by
  refine ⟨runServer_state reqs s, ?_, ?_⟩ <;> rw [runServer_state]

end FastAI
